import Mathlib

/-!
Shallow embedding of the `turagentstvo` tour-booking application
(`src/project/mikola/...`) and verification of its specification claims.

Conventions of the embedding:

- Python `datetime.date` values are modelled by the `Date` structure below
  (year/month/day integers with Gregorian validity); Python's lexicographic
  date comparison is `Date.lt` / `Date.le`; `date.replace(...)` raising
  `ValueError` on an invalid result is modelled by `Option Date`.
- Form fields (`request.form.get(...)`) are `Option` values: `none` means the
  field is absent from the request.  A field whose string content must be
  parsed (`int(...)`, `strptime`) is modelled by the parse *result*:
  `Option Int` / `Option Date` where `none` stands for a string rejected by
  the parser (`ValueError`).
- Date-valued strings carried around verbatim (e.g. `Tour.start_date`) are
  modelled by `DateString`: the raw text together with the result of
  `datetime.strptime(text, "%Y-%m-%d")`.
- Floats (prices) are modelled by `ℚ`; the repository performs no operations
  on them other than `*`, comparison, and Python `or` defaulting.
- The mutable repository singletons are modelled by explicit state passing:
  each route handler becomes a function from the relevant store lists (plus
  the session and `datetime.now()`) to a result constructor and updated
  store lists.
- The external Ticketmaster source (out of scope per the spec) is an input:
  the list of normalized event dicts it returned for the request.
-/

namespace Mikola

/-! ## Dates (model of Python `datetime.date`) -/

/-- A calendar date as Python's `datetime.date`: year, month, day. -/
structure Date where
  year : Int
  month : Int
  day : Int
deriving DecidableEq, Repr

/-- Gregorian leap year rule. -/
def isLeapYear (y : Int) : Bool :=
  y % 4 == 0 && (y % 100 != 0 || y % 400 == 0)

/-- Number of days of month `m` in year `y`. -/
def daysInMonth (y m : Int) : Int :=
  if m = 2 then (if isLeapYear y then 29 else 28)
  else if m = 4 ∨ m = 6 ∨ m = 9 ∨ m = 11 then 30
  else 31

/-- Validity of a year/month/day triple, as enforced by `datetime.date`. -/
def Date.valid (d : Date) : Prop :=
  1 ≤ d.month ∧ d.month ≤ 12 ∧ 1 ≤ d.day ∧ d.day ≤ daysInMonth d.year d.month

instance (d : Date) : Decidable d.valid := by
  unfold Date.valid; infer_instance

/-- Python's `<` on dates: lexicographic on (year, month, day). -/
def Date.lt (a b : Date) : Prop :=
  a.year < b.year ∨ (a.year = b.year ∧
    (a.month < b.month ∨ (a.month = b.month ∧ a.day < b.day)))

instance (a b : Date) : Decidable (Date.lt a b) := by
  unfold Date.lt; infer_instance

/-- Python's `<=` on dates: lexicographic on (year, month, day). -/
def Date.le (a b : Date) : Prop :=
  a.year < b.year ∨ (a.year = b.year ∧
    (a.month < b.month ∨ (a.month = b.month ∧ a.day ≤ b.day)))

instance (a b : Date) : Decidable (Date.le a b) := by
  unfold Date.le; infer_instance

/-- Model of `date.replace(year := y)`: `ValueError` on an invalid result
becomes `none` (this fires exactly for Feb 29 of a leap year when `y` is not
a leap year). -/
def Date.replaceYear (d : Date) (y : Int) : Option Date :=
  let r : Date := ⟨y, d.month, d.day⟩
  if r.valid then some r else none

/-- Model of `date.replace(day := nd)`: `ValueError` becomes `none`. -/
def Date.replaceDay (d : Date) (nd : Int) : Option Date :=
  let r : Date := ⟨d.year, d.month, nd⟩
  if r.valid then some r else none

/-- Model of `date.replace(month := nm, day := nd)`: `ValueError` becomes
`none` (this fires for `nm = 13`, i.e. when today is in December). -/
def Date.replaceMonthDay (d : Date) (nm nd : Int) : Option Date :=
  let r : Date := ⟨d.year, nm, nd⟩
  if r.valid then some r else none

/-- Successor day in the Gregorian calendar (for `timedelta` arithmetic). -/
def Date.nextDay (d : Date) : Date :=
  if d.day < daysInMonth d.year d.month then ⟨d.year, d.month, d.day + 1⟩
  else if d.month < 12 then ⟨d.year, d.month + 1, 1⟩
  else ⟨d.year + 1, 1, 1⟩

/-- Model of `d + timedelta(days := n)` for a valid date `d`. -/
def Date.addDays (d : Date) : Nat → Date
  | 0 => d
  | n + 1 => (d.nextDay).addDays n

/-- A date-valued string: the raw text as carried around by the code, paired
with the result of `datetime.strptime(text, "%Y-%m-%d")` (`none` models
`ValueError`). -/
structure DateString where
  text : String
  parsed : Option Date
deriving DecidableEq, Repr

/-! ## Data model (`src/project/mikola/models.py`) -/

/-- The `Tour` dataclass.  `price` is annotated `float` in the source but the
search code defends against a missing value with `(t.price or 0)`, so it is
modelled as `Option ℚ`. -/
structure Tour where
  id : Nat
  title : String
  description : String
  price : Option ℚ
  city : String
  country : String
  type : String
  duration_days : Int
  photo_url : Option String := none
  venue : Option String := none
  address : Option String := none
  timezone : Option String := none
  start_date : Option DateString := none
  end_date : Option DateString := none
  start_time : Option String := none
  ticket_url : Option String := none
  currency : Option String := none
  min_price : Option ℚ := none
  max_price : Option ℚ := none
  external_id : Option String := none
  lat : Option String := none
  lng : Option String := none
  categories : List String := []
deriving DecidableEq, Repr

/-- The `User` dataclass.  `email` comes from `request.form.get("email")`
and may therefore be Python `None`, hence `Option String`. -/
structure User where
  id : Nat
  email : Option String
  password_hash : String
  role : String
  first_name : Option String := none
  last_name : Option String := none
  phone : Option String := none
  passport_number : Option String := none
  passport_issued_by : Option String := none
  passport_issued_date : Option String := none
deriving DecidableEq, Repr

/-- The `Booking` dataclass.  Date-valued fields are stored by the workflow
from successfully parsed form input, so they are modelled as `Date`. -/
structure Booking where
  id : Nat
  tour_id : Nat
  user_id : Nat
  booking_date : Date
  travel_date : Date
  passengers : Int
  total_price : ℚ
  status : String
deriving DecidableEq, Repr

/-- The `Feedback` dataclass. -/
structure Feedback where
  id : Nat
  user_id : Nat
  subject : String
  message : String
  created_at : String
  status : String
  admin_response : Option String := none
  admin_id : Option Nat := none
  responded_at : Option String := none
  priority : String := "normal"
  category : String := "general"
deriving DecidableEq, Repr

/-- A normalized event dict as returned by the Ticketmaster service layer
(`ticketmaster_service.fetch_events`); `none` models an absent key. -/
structure Event where
  name : Option String := none
  description : Option String := none
  city : Option String := none
  country : Option String := none
  classification : Option String := none
  duration_days : Option Int := none
  image : Option String := none
  photo_url : Option String := none
  venue : Option String := none
  address : Option String := none
  timezone : Option String := none
  start_date : Option DateString := none
  end_date : Option DateString := none
  start_time : Option String := none
  url : Option String := none
  currency : Option String := none
  price_min : Option ℚ := none
  price_max : Option ℚ := none
  id : Option String := none
  lat : Option String := none
  lng : Option String := none
  genres : Option (List String) := none
deriving DecidableEq, Repr

/-- The pending booking intent held in `session["booking_data"]`.  It is only
ever written by `book_tour` after `travel_date` parsed successfully, so the
date is stored as a `Date`. -/
structure BookingIntent where
  tour_id : Nat
  travel_date : Date
  passengers : Int
deriving DecidableEq, Repr

/-- The server-side session.  `session["email"]` is assigned `user.email`,
which itself is optional, hence the nested `Option`. -/
structure Session where
  user_id : Option Nat := none
  email : Option (Option String) := none
  role : Option String := none
  booking_data : Option BookingIntent := none
deriving DecidableEq, Repr

/-! ## Python coercion helpers -/

/-- Python `a or b` for an optional string `a` and string default `b`
(`None` and `""` are falsy). -/
def pyOrStr (a : Option String) (b : String) : String :=
  match a with
  | some x => if x = "" then b else x
  | none => b

/-- Python `a or b` for optional numbers (`None` and `0` are falsy). -/
def pyOrQ (a : Option ℚ) (b : Option ℚ) : Option ℚ :=
  match a with
  | some x => if x = 0 then b else some x
  | none => b

/-- Python `x or 0` applied to an optional number, as in `(t.price or 0)`. -/
def pyNumOrZero (a : Option ℚ) : ℚ :=
  match a with
  | some x => if x = 0 then 0 else x
  | none => 0

/-- Truthiness of an optional string (`None` and `""` are falsy). -/
def pyStrTruthy (s : Option String) : Bool :=
  match s with
  | some x => !(x == "")
  | none => false

/-- Truthiness of an optional date-valued string field. -/
def pyDateStrTruthy (s : Option DateString) : Bool :=
  match s with
  | some ds => !(ds.text == "")
  | none => false

/-- Drop leading whitespace characters. -/
def dropLeadingWs : List Char → List Char
  | [] => []
  | c :: rest => if c.isWhitespace then dropLeadingWs rest else c :: rest

/-- Model of Python `str.strip()`: remove whitespace from both ends. -/
def pyStrip (s : String) : String :=
  ⟨(dropLeadingWs ((dropLeadingWs s.data).reverse)).reverse⟩

/-- Lowercasing, model of `str.lower()`. -/
def strLower (s : String) : String := s.map Char.toLower

/-- Whether `needle` matches a leading segment of `hay`. -/
def charsLead : List Char → List Char → Bool
  | [], _ => true
  | _ :: _, [] => false
  | a :: as, b :: bs => a == b && charsLead as bs

/-- Whether `needle` occurs as a contiguous segment of `hay`. -/
def charsSeg : List Char → List Char → Bool
  | needle, [] => charsLead needle []
  | needle, c :: rest => charsLead needle (c :: rest) || charsSeg needle rest

/-- Python `needle in hay` on strings (substring containment). -/
def strContains (hay needle : String) : Bool :=
  charsSeg needle.data hay.data

/-! ## Repositories (`src/project/mikola/repository/...`)

Each repository's mutable list is passed explicitly; mutating operations
return the updated list. -/

/-- `BookingRepository.get_by_id`: first booking with the given id. -/
def booking_get_by_id (bs : List Booking) (booking_id : Nat) : Option Booking :=
  bs.find? (fun b => b.id == booking_id)

/-- `BookingRepository.cancel_booking`: set the first matching booking's
status to `"cancelled"`, returning whether a booking was found together with
the updated list. -/
def booking_cancel : List Booking → Nat → Bool × List Booking
  | [], _ => (false, [])
  | b :: rest, booking_id =>
    if b.id == booking_id then
      (true, { b with status := "cancelled" } :: rest)
    else
      let r := booking_cancel rest booking_id
      (r.1, b :: r.2)

/-- `FeedbackRepository.get_by_id`: first feedback with the given id. -/
def feedback_get_by_id (fbs : List Feedback) (feedback_id : Nat) : Option Feedback :=
  fbs.find? (fun f => f.id == feedback_id)

/-- `FeedbackRepository.respond_to_feedback`: on the first matching record
set `admin_response`, `admin_id`, `responded_at = now` and force
`status = "resolved"`; report whether a record was found. -/
def respond_to_feedback : List Feedback → Nat → String → Nat → String → Bool × List Feedback
  | [], _, _, _, _ => (false, [])
  | f :: rest, feedback_id, response, admin_id, now =>
    if f.id == feedback_id then
      (true, { f with
                admin_response := some response
                admin_id := some admin_id
                responded_at := some now
                status := "resolved" } :: rest)
    else
      let r := respond_to_feedback rest feedback_id response admin_id now
      (r.1, f :: r.2)

/-- `UserRepository.get_by_email`: first user whose `email` equals the given
value (Python `None == None` holds, which the `Option` equality mirrors). -/
def user_get_by_email (users : List User) (email : Option String) : Option User :=
  users.find? (fun u => u.email == email)

/-- Stand-in for werkzeug's `generate_password_hash` (out of scope per the
spec: an opaque one-way function; only its output string is ever stored). -/
def generate_password_hash (password : String) : String :=
  "pbkdf2-sha256$" ++ password

/-! ## Tour catalog (`src/project/mikola/repository/tours_repo.py`) -/

/-- `ToursRepository._DEFAULT_PHOTO`. -/
def DEFAULT_PHOTO : String :=
  "https://images.unsplash.com/photo-1470229538611-16ba8c7ffbd7?q=80&w=1600&auto=format&fit=crop"

/-- `ToursRepository._MIN_LEAD_DAYS`. -/
def MIN_LEAD_DAYS : Nat := 30

/-- Round-half-even to an integer: model of the rounding performed by
Python's `f"{x:.0f}"` format. -/
def roundHalfEven (q : ℚ) : Int :=
  let f := ⌊q⌋
  if q - f < 1/2 then f
  else if (1 : ℚ)/2 < q - f then f + 1
  else if f % 2 = 0 then f else f + 1

/-- Model of the Python f-string fragment `f"{x:.0f}"`. -/
def formatF0 (q : ℚ) : String := toString (roundHalfEven q)

/-- `ToursRepository._compose_description`: composes the multi-paragraph
human-readable description of a normalized event. -/
def compose_description (e : Event) : String :=
  let base := match e.description with
    | some s => s
    | none => ""
  let details : List String := if base = "" then [] else [base]
  let details :=
    if pyStrTruthy e.venue || pyStrTruthy e.address then
      details ++ ["Площадка проведения: " ++ pyOrStr e.venue "уточняется" ++
        " (" ++ pyOrStr e.address "адрес уточняется" ++ ")."]
    else details
  let schedule_bits : List String :=
    (if pyDateStrTruthy e.start_date then
      let startText := (e.start_date.map DateString.text).getD ""
      let startText :=
        if pyStrTruthy e.start_time then
          startText ++ " в " ++ (e.start_time.getD "")
        else startText
      ["Старт программы: " ++ startText]
    else []) ++
    (match e.end_date with
     | some ed =>
       if ed.text ≠ "" && (match e.start_date with
           | some sd => ed.text ≠ sd.text
           | none => true) then
         ["Завершение: " ++ ed.text]
       else []
     | none => [])
  let details :=
    if schedule_bits ≠ [] then
      details ++ ["Расписание: " ++ String.intercalate "; " schedule_bits]
    else details
  let details :=
    if e.price_min.isSome || e.price_max.isSome then
      let currency := pyOrStr e.currency ""
      match e.price_min, e.price_max with
      | some mn, some mx =>
        details ++ ["Диапазон стоимости билетов: " ++ formatF0 mn ++ "–" ++
          formatF0 mx ++ " " ++ currency ++ "."]
      | some mn, none =>
        details ++ ["Ориентировочная стоимость: " ++ formatF0 mn ++ " " ++ currency ++ "."]
      | none, some mx =>
        details ++ ["Ориентировочная стоимость: " ++ formatF0 mx ++ " " ++ currency ++ "."]
      | none, none => details
    else details
  let details :=
    match e.genres with
    | some (g :: gs) =>
      details ++ ["Категории тура: " ++ String.intercalate ", " (g :: gs) ++ "."]
    | _ => details
  let details :=
    if pyStrTruthy e.url then
      details ++ ["Билеты и детали: " ++ (e.url.getD "")]
    else details
  let details :=
    if details = [] then
      ["Актуальная информация о мероприятии будет опубликована организатором Ticketmaster."]
    else details
  String.intercalate "\n\n" details

/-- Normalization of one event dict into a `Tour` at 1-based index `idx`
(the loop body of `ToursRepository._map_events`). -/
def map_event (idx : Nat) (e : Event) : Tour :=
  let price_anchor : ℚ := pyNumOrZero (pyOrQ e.price_min e.price_max)
  { id := idx
    title := e.name.getD "Live Experience"
    description := compose_description e
    price := some price_anchor
    city := e.city.getD ""
    country := e.country.getD ""
    type := e.classification.getD "experience"
    duration_days := (match e.duration_days with
      | some d => if d = 0 then 1 else d
      | none => 1)
    photo_url := some (pyOrStr e.image (pyOrStr e.photo_url DEFAULT_PHOTO))
    venue := e.venue
    address := e.address
    timezone := e.timezone
    start_date := e.start_date
    end_date := e.end_date
    start_time := e.start_time
    ticket_url := e.url
    currency := e.currency
    min_price := e.price_min
    max_price := e.price_max
    external_id := e.id
    lat := e.lat
    lng := e.lng
    categories := e.genres.getD [] }

/-- `ToursRepository._map_events` starting from index `idx`. -/
def map_events_from (idx : Nat) : List Event → List Tour
  | [] => []
  | e :: rest => map_event idx e :: map_events_from (idx + 1) rest

/-- `ToursRepository._map_events` (`enumerate(events, start=1)`). -/
def map_events (events : List Event) : List Tour :=
  map_events_from 1 events

/-- The keep-condition of the loop body of
`ToursRepository._filter_future_ready`: a tour is kept unless its
`start_date` is present, non-empty, parses, and lies before the threshold. -/
def future_ready_keep (threshold : Date) (t : Tour) : Bool :=
  match t.start_date with
  | none => true
  | some ds =>
    if ds.text = "" then true
    else match ds.parsed with
      | none => true
      | some d => decide (Date.le threshold d)

/-- `ToursRepository._filter_future_ready` with `datetime.utcnow().date()`
passed in as `today`. -/
def filter_future_ready (today : Date) (tours : List Tour) : List Tour :=
  if tours.isEmpty then tours
  else
    let threshold := today.addDays MIN_LEAD_DAYS
    let filtered := tours.filter (future_ready_keep threshold)
    if filtered.isEmpty then tours else filtered

/-- `ToursRepository.sync_events` with the external response passed in as
`events` (the `city` / `keyword` / `classification_id` query parameters only
influence that response and therefore do not appear): on a non-empty
response the catalog is replaced by the normalized, future-ready-filtered
list, otherwise it is left untouched. -/
def sync_events (current : List Tour) (events : List Event) (today : Date) : List Tour :=
  if events.isEmpty then current
  else filter_future_ready today (map_events events)

/-- `ToursRepository.get_by_id`: linear scan. -/
def tours_get_by_id (tours : List Tour) (tour_id : Nat) : Option Tour :=
  tours.find? (fun t => t.id == tour_id)

/-- `ToursRepository.search`: first re-syncs the catalog from the source
(`location` / `keyword` are forwarded as query parameters and only influence
`events`), then applies the in-memory filters.  Returns the new catalog
state together with the filtered results. -/
def tours_search (current : List Tour) (events : List Event) (today : Date)
    (location : String) (type_ : String)
    (min_price max_price : Option ℚ) (duration : Option Int)
    (keyword : String) : List Tour × List Tour :=
  let state := sync_events current events today
  let q := state
  let q := if location = "" then q else
    q.filter (fun t =>
      strContains (strLower t.city) (strLower location) ||
      strContains (strLower t.country) (strLower location))
  let q := if type_ = "" then q else
    q.filter (fun t => strLower t.type == strLower type_)
  let q := match min_price with
    | none => q
    | some m => q.filter (fun t => decide (m ≤ pyNumOrZero t.price))
  let q := match max_price with
    | none => q
    | some m => q.filter (fun t => decide (pyNumOrZero t.price ≤ m))
  let q := match duration with
    | none => q
    | some d => q.filter (fun t => t.duration_days == d)
  let q := if keyword = "" then q else
    q.filter (fun t =>
      strContains (strLower t.title) (strLower keyword) ||
      strContains (strLower t.description) (strLower keyword))
  (state, q)

/-! ## Booking workflow (`src/project/mikola/blueprints/public.py`) -/

/-- Outcome of `POST /book/{tour_id}` (`public.book_tour`).  Constructors
mirror the handler's return branches. -/
inductive BookResult
  | notFound
  | invalidPassengers
  | passengersOutOfRange
  | missingDate
  | invalidDate
  | pastDate
  | dateTooFar
  | registerRedirect (intent : BookingIntent)
  | booked (b : Booking)
deriving DecidableEq, Repr

/-- The unit price computed by `book_tour`:
`(min_price if min_price is not None else (max_price if max_price is not
None else price)) or 0`. -/
def unit_price (t : Tour) : ℚ :=
  pyNumOrZero (match t.min_price with
    | some v => some v
    | none =>
      match t.max_price with
      | some v => some v
      | none => t.price)

/-- `public.book_tour`.  Form fields: `travel_date` is `none` when absent or
empty (falsy), `some none` when present but rejected by `strptime`,
`some (some d)` when it parses; `passengers` is `none` when absent (the
route then defaults to `1`), `some none` when `int(...)` raises
`ValueError`, `some (some p)` when it parses.  `today` is
`datetime.now().date()`.  Returns the handler outcome and the updated
booking list. -/
def book_tour (tours : List Tour) (tour_id : Nat) (session_user : Option Nat)
    (today : Date) (travel_date_field : Option (Option Date))
    (passengers_field : Option (Option Int))
    (booking_next_id : Nat) (bookings : List Booking) :
    BookResult × List Booking :=
  match tours_get_by_id tours tour_id with
  | none => (.notFound, bookings)
  | some tour =>
    match (match passengers_field with
           | none => some (1 : Int)
           | some r => r) with
    | none => (.invalidPassengers, bookings)
    | some passengers =>
      if passengers < 1 ∨ passengers > 10 then (.passengersOutOfRange, bookings)
      else match travel_date_field with
      | none => (.missingDate, bookings)
      | some none => (.invalidDate, bookings)
      | some (some travel_date) =>
        if Date.lt travel_date today then (.pastDate, bookings)
        else match today.replaceYear (today.year + 1) with
        | none => (.invalidDate, bookings)
        | some max_future_date =>
          if Date.lt max_future_date travel_date then (.dateTooFar, bookings)
          else match session_user with
          | none =>
            (.registerRedirect ⟨tour_id, travel_date, passengers⟩, bookings)
          | some user_id =>
            let total_price := unit_price tour * passengers
            let b : Booking :=
              { id := booking_next_id
                tour_id := tour_id
                user_id := user_id
                booking_date := today
                travel_date := travel_date
                passengers := passengers
                total_price := total_price
                status := "confirmed" }
            (.booked b, bookings ++ [b])

/-- Outcome of `POST /booking/{id}/cancel` (`public.cancel_booking`). -/
inductive CancelResult
  | requireLogin
  | notFound
  | forbidden
  | dateError
  | tooLate
  | success
  | repoError
deriving DecidableEq, Repr

/-- The minimum-cancellable date computed by `public.cancel_booking`:
`today.replace(day=today.day + 3) if today.day <= 28 else
today.replace(month=today.month + 1, day=3)`; `none` models the
`ValueError` that `replace` raises on an invalid result. -/
def min_cancel_date (today : Date) : Option Date :=
  if today.day ≤ 28 then today.replaceDay (today.day + 3)
  else today.replaceMonthDay (today.month + 1) 3

/-- `public.cancel_booking`.  Bookings are created by the workflow with a
successfully parsed `travel_date`, so re-parsing it always succeeds; the
`ValueError` branch of the handler therefore fires exactly when
`min_cancel_date` is undefined. -/
def cancel_booking_route (bookings : List Booking) (session_user : Option Nat)
    (booking_id : Nat) (today : Date) : CancelResult × List Booking :=
  match session_user with
  | none => (.requireLogin, bookings)
  | some user_id =>
    match booking_get_by_id bookings booking_id with
    | none => (.notFound, bookings)
    | some booking =>
      if booking.user_id ≠ user_id then (.forbidden, bookings)
      else match min_cancel_date today with
      | none => (.dateError, bookings)
      | some mcd =>
        if Date.le booking.travel_date mcd then (.tooLate, bookings)
        else
          let r := booking_cancel bookings booking_id
          (if r.1 then .success else .repoError, r.2)

/-- Outcome of `POST /feedback` (`public.submit_feedback`). -/
inductive SubmitFeedbackResult
  | requireLogin
  | emptySubject
  | emptyMessage
  | subjectTooLong
  | messageTooLong
  | success (feedback_id : Nat)
deriving DecidableEq, Repr

/-- `public.submit_feedback`.  Form fields are `none` when absent; `now` is
the `created_at` timestamp.  Note that `priority` is taken verbatim from
the form with only an absence default. -/
def submit_feedback (session_user : Option Nat)
    (subject_field message_field category_field priority_field : Option String)
    (feedback_next_id : Nat) (fbs : List Feedback) (now : String) :
    SubmitFeedbackResult × List Feedback :=
  match session_user with
  | none => (.requireLogin, fbs)
  | some user_id =>
    let subject := pyStrip (subject_field.getD "")
    let message := pyStrip (message_field.getD "")
    let category := category_field.getD "general"
    let priority := priority_field.getD "normal"
    if subject = "" then (.emptySubject, fbs)
    else if message = "" then (.emptyMessage, fbs)
    else if subject.length > 200 then (.subjectTooLong, fbs)
    else if message.length > 2000 then (.messageTooLong, fbs)
    else
      let fb : Feedback :=
        { id := feedback_next_id
          user_id := user_id
          subject := subject
          message := message
          created_at := now
          status := "new"
          priority := priority
          category := category }
      (.success feedback_next_id, fbs ++ [fb])

/-! ## Registration (`src/project/mikola/blueprints/auth.py`) -/

/-- Outcome of `POST /register` (`auth.register_post`). -/
inductive RegisterResult
  | passwordMismatch
  | passwordTooShort
  | emailTaken
  | crash
  | invalidBookingData
  | bookingPastDate
  | bookingTooFar
  | bookedRedirect (booking_id : Nat)
  | redirectLogin
deriving DecidableEq, Repr

/-- Registration form fields (`request.form.get(...)`, `none` = absent). -/
structure RegisterForm where
  email : Option String := none
  password : Option String := none
  confirm_password : Option String := none
  first_name : Option String := none
  last_name : Option String := none
  phone : Option String := none
deriving DecidableEq, Repr

/-- The application state touched by `auth.register_post`. -/
structure RegisterState where
  users : List User
  users_next_id : Nat
  bookings : List Booking
  bookings_next_id : Nat
  sess : Session
deriving DecidableEq, Repr

/-- `auth.register_post`.  `tours` is the current catalog, `today` is
`datetime.now().date()`.  `crash` models the uncaught `TypeError` raised by
`len(None)` (password absent after an equal-confirm check) or by
`None * int` (a tour without a price) — both unreachable through the HTML
form and the normalized catalog.  The pending intent's `travel_date` was
stored after a successful parse, so re-parsing succeeds and the
`(ValueError, KeyError)` branch fires exactly when
`today.replace(year=today.year + 1)` fails. -/
def register_post (st : RegisterState) (form : RegisterForm)
    (tours : List Tour) (today : Date) : RegisterResult × RegisterState :=
  if form.password ≠ form.confirm_password then (.passwordMismatch, st)
  else match form.password with
  | none => (.crash, st)
  | some password =>
    if password.length < 6 then (.passwordTooShort, st)
    else if (user_get_by_email st.users form.email).isSome then (.emailTaken, st)
    else
      let new_id := st.users_next_id
      let user : User :=
        { id := new_id
          email := form.email
          password_hash := generate_password_hash password
          role := "client"
          first_name := form.first_name
          last_name := form.last_name
          phone := form.phone }
      let st1 : RegisterState :=
        { st with users := st.users ++ [user], users_next_id := new_id + 1 }
      match st.sess.booking_data with
      | none => (.redirectLogin, st1)
      | some bd =>
        if Date.lt bd.travel_date today then
          (.bookingPastDate, { st1 with sess := { st1.sess with booking_data := none } })
        else match today.replaceYear (today.year + 1) with
        | none =>
          (.invalidBookingData, { st1 with sess := { st1.sess with booking_data := none } })
        | some max_future_date =>
          if Date.lt max_future_date bd.travel_date then
            (.bookingTooFar, { st1 with sess := { st1.sess with booking_data := none } })
          else
            let sess2 : Session :=
              { st1.sess with
                  user_id := some new_id
                  email := some user.email
                  role := some "client" }
            match tours_get_by_id tours bd.tour_id with
            | none => (.redirectLogin, { st1 with sess := sess2 })
            | some tour =>
              match tour.price with
              | none => (.crash, { st1 with sess := sess2 })
              | some p =>
                let booking_id := st1.bookings_next_id
                let booking : Booking :=
                  { id := booking_id
                    tour_id := bd.tour_id
                    user_id := new_id
                    booking_date := today
                    travel_date := bd.travel_date
                    passengers := bd.passengers
                    total_price := p * bd.passengers
                    status := "confirmed" }
                (.bookedRedirect booking_id,
                 { st1 with
                     bookings := st1.bookings ++ [booking]
                     bookings_next_id := booking_id + 1
                     sess := { sess2 with booking_data := none } })

/-! ## Spec-worded definitions

These two definitions follow the words of the specification claims (not the
source); they exist only to be compared against the code's behavior. -/

/-- The unit price as the spec's claim words it: the tour's `min_price` if
present, else `max_price` if present, else `price`, else 0. -/
def claimUnitPrice (t : Tour) : ℚ :=
  match t.min_price with
  | some v => v
  | none =>
    match t.max_price with
    | some v => v
    | none => t.price.getD 0

/-- The minimum-cancellable date as the spec's claim words it: if today's
day-of-month is at most 28 then today with `day + 3`, otherwise today
rolled to the next month at day 3. -/
def claimMinCancelDate (today : Date) : Date :=
  if today.day ≤ 28 then ⟨today.year, today.month, today.day + 3⟩
  else if today.month = 12 then ⟨today.year + 1, 1, 3⟩
  else ⟨today.year, today.month + 1, 3⟩

/-- The parseable start date of a tour, as seen by the future-readiness
filter: `none` when the field is absent, empty (falsy) or rejected by
`strptime`. -/
def parsedStart (t : Tour) : Option Date :=
  match t.start_date with
  | none => none
  | some ds => if ds.text = "" then none else ds.parsed

/-! ## Concrete fixtures for witnesses and counterexamples -/

/-- Concrete tour fixture for the C5 witness. -/
def c5Tour : Tour :=
  { id := 1
    title := "T"
    description := ""
    price := some 10
    city := ""
    country := ""
    type := "city"
    duration_days := 1 }

/-- Concrete booking produced in the C5 witness scenario. -/
def c5Booking : Booking :=
  { id := 1
    tour_id := 1
    user_id := 3
    booking_date := ⟨2026, 1, 10⟩
    travel_date := ⟨2026, 5, 1⟩
    passengers := 5
    total_price := 50
    status := "confirmed" }

/-- Concrete feedback fixture for the C7 witness (note the `closed`
status). -/
def c7Feedback : Feedback :=
  { id := 1
    user_id := 2
    subject := "s"
    message := "m"
    created_at := "2026-01-01 09:00:00"
    status := "closed" }

/-- Concrete priceless tour fixture for C6. -/
def c6Tour : Tour :=
  { id := 1
    title := "NoPrice"
    description := ""
    price := none
    city := ""
    country := ""
    type := "city"
    duration_days := 1 }

/-- Concrete booking fixture for C3: owned by user 4, travelling well after
any plausible cancellation cutoff. -/
def c3Booking : Booking :=
  { id := 1
    tour_id := 1
    user_id := 4
    booking_date := ⟨2025, 12, 1⟩
    travel_date := ⟨2026, 6, 1⟩
    passengers := 2
    total_price := 100
    status := "confirmed" }

/-- Concrete tour fixture for C2. -/
def c2Tour : Tour :=
  { id := 1
    title := "T"
    description := ""
    price := some 10
    city := ""
    country := ""
    type := "city"
    duration_days := 1 }

/-- Concrete tour fixture for C1: a range price (`min_price = 50`) next to
an anchor price of 100. -/
def c1Tour : Tour :=
  { id := 1
    title := "T"
    description := ""
    price := some 100
    city := ""
    country := ""
    type := "city"
    duration_days := 1
    min_price := some 50 }

/-- Concrete pre-registration state for C1: a pending two-passenger intent
for tour 1. -/
def c1State : RegisterState :=
  { users := []
    users_next_id := 2
    bookings := []
    bookings_next_id := 1
    sess := { booking_data := some ⟨1, ⟨2026, 5, 1⟩, 2⟩ } }

/-- Concrete registration form for C1. -/
def c1Form : RegisterForm :=
  { email := some "a@b.c"
    password := some "secret1"
    confirm_password := some "secret1" }

/-- Concrete pre-registration state for the C2 witness. -/
def c2State : RegisterState :=
  { users := []
    users_next_id := 2
    bookings := []
    bookings_next_id := 1
    sess := {} }

/-- Concrete registration form for the C9 witness. -/
def c9Form : RegisterForm :=
  { email := some "u@x.y"
    password := some "secret1"
    confirm_password := some "secret1" }

/-- Concrete pre-registration state for the C9 witness (no pending
intent). -/
def c9State : RegisterState :=
  { users := []
    users_next_id := 5
    bookings := []
    bookings_next_id := 1
    sess := {} }

/-- Concrete registration form for the C10 witness. -/
def c10Form : RegisterForm :=
  { email := some "v@x.y"
    password := some "secret1"
    confirm_password := some "secret1" }

/-- Concrete pre-registration state for the C10 witness: a pending intent
for tour 42, which does not exist in the (empty) catalog. -/
def c10State : RegisterState :=
  { users := []
    users_next_id := 3
    bookings := []
    bookings_next_id := 1
    sess := { booking_data := some ⟨42, ⟨2026, 5, 1⟩, 2⟩ } }

/-! ## Helper lemmas -/

theorem Date.le_iff_not_lt (a b : Date) : Date.le a b ↔ ¬ Date.lt b a := by
  unfold Date.le Date.lt; omega

theorem pyNumOrZero_eq_getD (a : Option ℚ) : pyNumOrZero a = a.getD 0 := by
  cases a with
  | none => rfl
  | some x =>
    simp only [pyNumOrZero, Option.getD_some]
    split <;> simp_all

theorem Date.addDays_add (d : Date) (a b : Nat) :
    d.addDays (a + b) = (d.addDays a).addDays b := by
  induction a generalizing d with
  | zero => rw [Nat.zero_add]; rfl
  | succ n ih =>
    rw [Nat.succ_add]
    exact ih d.nextDay

theorem unit_price_eq_claim (t : Tour) : unit_price t = claimUnitPrice t := by
  unfold unit_price claimUnitPrice
  cases t.min_price with
  | some v => simp [pyNumOrZero]; exact fun h => h.symm
  | none =>
    cases t.max_price with
    | some v => simp [pyNumOrZero]; exact fun h => h.symm
    | none => simp [pyNumOrZero_eq_getD]

theorem booking_cancel_of_not_found (bs : List Booking) (i : Nat)
    (h : booking_get_by_id bs i = none) : booking_cancel bs i = (false, bs) := by
  induction bs with
  | nil => rfl
  | cons b rest ih =>
    unfold booking_get_by_id at h ih
    rw [List.find?_cons] at h
    unfold booking_cancel
    cases hb : (b.id == i) with
    | true => rw [hb] at h; exact absurd h (by simp)
    | false =>
      rw [hb] at h
      simp only [hb, Bool.false_eq_true, if_false, ih h]

theorem booking_cancel_of_found (bs : List Booking) (i : Nat) (b : Booking)
    (h : booking_get_by_id bs i = some b) :
    (booking_cancel bs i).1 = true ∧
    booking_get_by_id (booking_cancel bs i).2 i = some { b with status := "cancelled" } := by
  induction bs with
  | nil => simp [booking_get_by_id] at h
  | cons x rest ih =>
    unfold booking_get_by_id at h ih ⊢
    rw [List.find?_cons] at h
    unfold booking_cancel
    cases hb : (x.id == i) with
    | true =>
      rw [hb] at h
      simp only [Option.some.injEq] at h
      subst h
      simp only [hb, List.find?_cons]
      constructor
      · rfl
      · have : ({ x with status := "cancelled" } : Booking).id == i := hb
        simp [this]
    | false =>
      rw [hb] at h
      have ihr := ih h
      simp only [hb, List.find?_cons]
      constructor
      · exact ihr.1
      · simp only [Bool.false_eq_true, if_false]
        rw [List.find?_cons]
        simp only [hb]
        exact ihr.2

theorem respond_of_not_found (fbs : List Feedback) (i : Nat) (resp : String)
    (aid : Nat) (now : String)
    (h : feedback_get_by_id fbs i = none) :
    respond_to_feedback fbs i resp aid now = (false, fbs) := by
  induction fbs with
  | nil => rfl
  | cons f rest ih =>
    unfold feedback_get_by_id at h ih
    rw [List.find?_cons] at h
    unfold respond_to_feedback
    cases hb : (f.id == i) with
    | true => rw [hb] at h; exact absurd h (by simp)
    | false =>
      rw [hb] at h
      simp only [hb, Bool.false_eq_true, if_false, ih h]

theorem respond_of_found (fbs : List Feedback) (i : Nat) (resp : String)
    (aid : Nat) (now : String) (f : Feedback)
    (h : feedback_get_by_id fbs i = some f) :
    (respond_to_feedback fbs i resp aid now).1 = true ∧
    feedback_get_by_id (respond_to_feedback fbs i resp aid now).2 i =
      some { f with
               admin_response := some resp
               admin_id := some aid
               responded_at := some now
               status := "resolved" } := by
  induction fbs with
  | nil => simp [feedback_get_by_id] at h
  | cons x rest ih =>
    unfold feedback_get_by_id at h ih ⊢
    rw [List.find?_cons] at h
    unfold respond_to_feedback
    cases hb : (x.id == i) with
    | true =>
      rw [hb] at h
      simp only [Option.some.injEq] at h
      subst h
      simp only [hb, List.find?_cons]
      constructor
      · rfl
      · have : ({ x with
                   admin_response := some resp
                   admin_id := some aid
                   responded_at := some now
                   status := "resolved" } : Feedback).id == i := hb
        simp [this]
    | false =>
      rw [hb] at h
      have ihr := ih h
      simp only [hb, List.find?_cons]
      constructor
      · exact ihr.1
      · simp only [Bool.false_eq_true, if_false]
        rw [List.find?_cons]
        simp only [hb]
        exact ihr.2

/-! ## Claim theorems -/

/-- C5: for every direct booking request at `POST /book/{id}` whose
`passengers` form value is present, a Booking is created only if the value
parses as an integer `p` with `1 ≤ p ≤ 10`, and the created booking carries
exactly that passenger count; a value that fails to parse (`ValueError`) or
parses outside `[1, 10]` (such as 0 or 11) is rejected with the booking
store unchanged. -/
theorem c5_passenger_validation (tours : List Tour) (tour_id : Nat)
    (session_user : Option Nat) (today : Date)
    (tdf : Option (Option Date)) (pr : Option Int)
    (bid : Nat) (bs : List Booking) :
    (∀ b, (book_tour tours tour_id session_user today tdf (some pr) bid bs).1 = .booked b →
       ∃ p, pr = some p ∧ 1 ≤ p ∧ p ≤ 10 ∧ b.passengers = p) ∧
    ((pr = none ∨ ∃ p, pr = some p ∧ (p < 1 ∨ 10 < p)) →
       (book_tour tours tour_id session_user today tdf (some pr) bid bs).2 = bs) := by
  constructor
  · intro b hb
    unfold book_tour at hb
    cases htour : tours_get_by_id tours tour_id with
    | none => rw [htour] at hb; cases hb
    | some tour =>
      rw [htour] at hb
      cases pr with
      | none => cases hb
      | some p =>
        simp only at hb
        by_cases hrange : p < 1 ∨ p > 10
        · rw [if_pos hrange] at hb; cases hb
        · rw [if_neg hrange] at hb
          refine ⟨p, rfl, by omega, by omega, ?_⟩
          cases tdf with
          | none => cases hb
          | some td =>
            cases td with
            | none => cases hb
            | some d =>
              simp only at hb
              by_cases hpast : Date.lt d today
              · rw [if_pos hpast] at hb; cases hb
              · rw [if_neg hpast] at hb
                cases hmax : today.replaceYear (today.year + 1) with
                | none => rw [hmax] at hb; cases hb
                | some m =>
                  rw [hmax] at hb
                  simp only at hb
                  by_cases hfar : Date.lt m d
                  · rw [if_pos hfar] at hb; cases hb
                  · rw [if_neg hfar] at hb
                    cases session_user with
                    | none => cases hb
                    | some uid =>
                      simp only [BookResult.booked.injEq] at hb
                      rw [← hb]
  · intro hbad
    unfold book_tour
    cases htour : tours_get_by_id tours tour_id with
    | none => rfl
    | some tour =>
      cases hbad with
      | inl hnone => subst hnone; rfl
      | inr hout =>
        obtain ⟨p, hp, hrange⟩ := hout
        subst hp
        simp only
        rw [if_pos (by omega)]

/-- Witness for C5 at concrete inputs: `passengers = 0` is rejected leaving
the store empty, and `passengers = 5` yields a booking carrying 5. -/
theorem c5_passenger_validation_witness :
    ((book_tour [c5Tour] 1 (some 3) ⟨2026, 1, 10⟩ (some (some ⟨2026, 5, 1⟩))
        (some (some 0)) 1 []).2 = []) ∧
    (∃ p, some (5 : Int) = some p ∧ 1 ≤ p ∧ p ≤ 10 ∧ c5Booking.passengers = p) :=
  ⟨(c5_passenger_validation [c5Tour] 1 (some 3) ⟨2026, 1, 10⟩
      (some (some ⟨2026, 5, 1⟩)) (some 0) 1 []).2
      (Or.inr ⟨0, rfl, Or.inl (by omega)⟩),
   (c5_passenger_validation [c5Tour] 1 (some 3) ⟨2026, 1, 10⟩
      (some (some ⟨2026, 5, 1⟩)) (some 5) 1 []).1 c5Booking
      (by norm_num [book_tour, tours_get_by_id, unit_price, pyNumOrZero,
        c5Tour, c5Booking, Date.lt, Date.replaceYear, Date.valid,
        daysInMonth, isLeapYear])⟩

/-- C7: `respondTo(id, text, adminId)` followed by `getById(id)` yields a
record with `status = "resolved"` (whatever the prior status, `closed`
included), `admin_response = text`, `admin_id = adminId` and `responded_at`
set to the (non-empty) current timestamp; on a non-existent id the call
returns failure and leaves every record unchanged. -/
theorem c7_respond_round_trip (fbs : List Feedback) (fid : Nat) (text : String)
    (admin_id : Nat) (now : String) (hnow : now ≠ "") :
    (∀ f, feedback_get_by_id fbs fid = some f →
       (respond_to_feedback fbs fid text admin_id now).1 = true ∧
       ∃ r, feedback_get_by_id (respond_to_feedback fbs fid text admin_id now).2 fid = some r ∧
         r.status = "resolved" ∧ r.admin_response = some text ∧
         r.admin_id = some admin_id ∧ r.responded_at = some now ∧
         r.responded_at ≠ some "") ∧
    (feedback_get_by_id fbs fid = none →
       respond_to_feedback fbs fid text admin_id now = (false, fbs)) := by
  constructor
  · intro f hf
    obtain ⟨h1, h2⟩ := respond_of_found fbs fid text admin_id now f hf
    exact ⟨h1, ⟨_, h2, rfl, rfl, rfl, rfl, by simpa using hnow⟩⟩
  · intro hf
    exact respond_of_not_found fbs fid text admin_id now hf

/-- Witness for C7 at a concrete store: responding to a `closed` record
resolves it with the response recorded, and responding to a missing id is a
failure that changes nothing. -/
theorem c7_respond_round_trip_witness :
    (∃ r, feedback_get_by_id (respond_to_feedback [c7Feedback] 1
        "done" 9 "2026-01-02 10:00:00").2 1 = some r ∧
      r.status = "resolved" ∧ r.admin_response = some "done" ∧
      r.admin_id = some 9 ∧ r.responded_at = some "2026-01-02 10:00:00" ∧
      r.responded_at ≠ some "") ∧
    respond_to_feedback [c7Feedback] 7 "done" 9 "2026-01-02 10:00:00" =
      (false, [c7Feedback]) :=
  ⟨((c7_respond_round_trip [c7Feedback] 1 "done" 9 "2026-01-02 10:00:00"
      (by decide)).1 c7Feedback (by decide)).2,
   (c7_respond_round_trip [c7Feedback] 7 "done" 9 "2026-01-02 10:00:00"
      (by decide)).2 (by decide)⟩

/-- C8 counterexample: submitting a feedback with the invalid priority value
`"banana"` is accepted and stored verbatim — the route layer does not
substitute `"normal"` for invalid values, so the stored priority is outside
`{low, normal, high, urgent}`. -/
theorem c8_counterexample :
    ((submit_feedback (some 1) (some "Subject") (some "Hello") none
        (some "banana") 1 [] "2026-01-01 00:00:00").2.map Feedback.priority
      = ["banana"]) ∧
    ¬ ("banana" = "low" ∨ "banana" = "normal" ∨ "banana" = "high" ∨
       "banana" = "urgent") := by
  constructor
  · decide
  · decide

/-- C8 amended: an accepted `POST /feedback` stores the submitted priority
form value verbatim; `"normal"` is substituted only when the field is
absent, so an invalid submitted value ends up stored unchanged (possibly
outside `{low, normal, high, urgent}`). -/
theorem c8_priority_passthrough (uid : Nat) (sf mf cf pf : Option String)
    (nid : Nat) (fbs : List Feedback) (now : String) (fid : Nat)
    (h : (submit_feedback (some uid) sf mf cf pf nid fbs now).1 = .success fid) :
    ∃ fb, (submit_feedback (some uid) sf mf cf pf nid fbs now).2 = fbs ++ [fb] ∧
      fb.priority = pf.getD "normal" ∧ (pf = none → fb.priority = "normal") := by
  unfold submit_feedback at h ⊢
  simp only at h ⊢
  by_cases h1 : pyStrip (sf.getD "") = ""
  · rw [if_pos h1] at h; cases h
  · rw [if_neg h1] at h ⊢
    by_cases h2 : pyStrip (mf.getD "") = ""
    · rw [if_pos h2] at h; cases h
    · rw [if_neg h2] at h ⊢
      by_cases h3 : (pyStrip (sf.getD "")).length > 200
      · rw [if_pos h3] at h; cases h
      · rw [if_neg h3] at h ⊢
        by_cases h4 : (pyStrip (mf.getD "")).length > 2000
        · rw [if_pos h4] at h; cases h
        · rw [if_neg h4] at h ⊢
          exact ⟨_, rfl, rfl, fun hp => by rw [hp]; rfl⟩

/-- Witness for C8 (amended) at concrete inputs: a submission with an
absent priority field stores `"normal"`. -/
theorem c8_priority_passthrough_witness :
    ∃ fb, (submit_feedback (some 1) (some "Subject") (some "Hello") none
        none 1 [] "2026-01-01 00:00:00").2 = [] ++ [fb] ∧
      fb.priority = (none : Option String).getD "normal" ∧
      ((none : Option String) = none → fb.priority = "normal") :=
  c8_priority_passthrough 1 (some "Subject") (some "Hello") none none
    1 [] "2026-01-01 00:00:00" 1 (by decide)

/-- C6 counterexample: a tour with an absent price is compared as price 0
against the upper bound too — it is dropped by `max_price = -1` (where a
tour exempt from the upper bound would survive) and kept by
`max_price = 5`, exactly as a price-0 tour would be.  This refutes the
claim that the absent price is treated as 0 for the lower bound only. -/
theorem c6_counterexample :
    c6Tour.price = none ∧
    (tours_search [c6Tour] [] ⟨2026, 1, 1⟩ "" "" none (some (-1)) none "").2 = [] ∧
    (tours_search [c6Tour] [] ⟨2026, 1, 1⟩ "" "" none (some 5) none "").2 = [c6Tour] := by
  refine ⟨rfl, ?_, ?_⟩ <;>
    norm_num [tours_search, sync_events, pyNumOrZero, c6Tour, List.filter]

/-- C6 amended: in the search operation's in-memory price filtering both
bounds are inclusive and an absent price is treated as 0 for *both* bounds:
a catalog tour survives the two price filters exactly when
`min ≤ (price or 0)` and `(price or 0) ≤ max`. -/
theorem c6_price_bounds (current : List Tour) (today : Date) (t : Tour)
    (m x : ℚ) (ht : t ∈ current) :
    t ∈ (tours_search current [] today "" "" (some m) (some x) none "").2 ↔
      (m ≤ t.price.getD 0 ∧ t.price.getD 0 ≤ x) := by
  unfold tours_search sync_events
  simp [List.mem_filter, pyNumOrZero_eq_getD, ht, and_comm]

/-- Witness for C6 (amended) at a concrete catalog and bounds. -/
theorem c6_price_bounds_witness :
    c6Tour ∈ (tours_search [c6Tour] [] ⟨2026, 1, 1⟩ "" "" (some (-2)) (some 5)
        none "").2 ↔
      ((-2 : ℚ) ≤ c6Tour.price.getD 0 ∧ c6Tour.price.getD 0 ≤ 5) :=
  c6_price_bounds [c6Tour] ⟨2026, 1, 1⟩ c6Tour (-2) 5 (by simp)

/-- The normalized list has the same length as the event list. -/
theorem map_events_from_length (i : Nat) (events : List Event) :
    (map_events_from i events).length = events.length := by
  induction events generalizing i with
  | nil => rfl
  | cons e rest ih => simp [map_events_from, ih]

/-- The keep-condition of the future-readiness filter holds exactly when
the tour does not have a parseable start date lying before the
threshold. -/
theorem future_ready_keep_iff (thr : Date) (t : Tour) :
    future_ready_keep thr t = true ↔
      ¬ ∃ d, parsedStart t = some d ∧ Date.lt d thr := by
  unfold future_ready_keep parsedStart
  cases t.start_date with
  | none => simp
  | some ds =>
    by_cases he : ds.text = ""
    · simp [he]
    · simp only [if_neg he]
      cases ds.parsed with
      | none => simp
      | some d => simp [Date.le_iff_not_lt]

/-- The future-readiness filter step never empties a non-empty list. -/
theorem filter_future_ready_ne_nil (today : Date) (tours : List Tour)
    (h : tours ≠ []) : filter_future_ready today tours ≠ [] := by
  simp only [filter_future_ready]
  rw [if_neg (by simpa [List.isEmpty_iff] using h)]
  by_cases hfe : (tours.filter (future_ready_keep (today.addDays MIN_LEAD_DAYS))).isEmpty
  · rw [if_pos hfe]; exact h
  · rw [if_neg hfe]; simpa [List.isEmpty_iff] using hfe

/-- C4: when the event source returns a non-empty list, the refreshed
catalog is non-empty; a no-parameter `search` returns exactly the refreshed
catalog (hence it is never empty); the future-readiness filter keeps
precisely the tours with no parseable start date before `today + 30` days,
and falls back to the whole unfiltered normalized list when it would drop
everything. -/
theorem c4_catalog_never_empty (current : List Tour) (events : List Event)
    (today : Date) (h : events ≠ []) :
    sync_events current events today ≠ [] ∧
    (tours_search current events today "" "" none none none "").2 =
      sync_events current events today ∧
    (∀ t, future_ready_keep (today.addDays MIN_LEAD_DAYS) t = true ↔
       ¬ ∃ d, parsedStart t = some d ∧ Date.lt d (today.addDays MIN_LEAD_DAYS)) ∧
    ((map_events events).filter (future_ready_keep (today.addDays MIN_LEAD_DAYS)) ≠ [] →
       sync_events current events today =
         (map_events events).filter (future_ready_keep (today.addDays MIN_LEAD_DAYS))) ∧
    ((map_events events).filter (future_ready_keep (today.addDays MIN_LEAD_DAYS)) = [] →
       sync_events current events today = map_events events) := by
  have hmap : map_events events ≠ [] := by
    intro hnil
    apply h
    have hlen := map_events_from_length 1 events
    rw [show map_events events = map_events_from 1 events from rfl] at hnil
    rw [hnil] at hlen
    exact List.length_eq_zero.mp hlen.symm
  have hsync : sync_events current events today =
      filter_future_ready today (map_events events) := by
    unfold sync_events
    rw [if_neg (by simpa [List.isEmpty_iff] using h)]
  refine ⟨?_, ?_, fun t => future_ready_keep_iff _ t, ?_, ?_⟩
  · rw [hsync]
    exact filter_future_ready_ne_nil today _ hmap
  · simp [tours_search]
  · intro hf
    rw [hsync]
    simp only [filter_future_ready]
    rw [if_neg (by simpa [List.isEmpty_iff] using hmap)]
    rw [if_neg (by simpa [List.isEmpty_iff] using hf)]
  · intro hf
    rw [hsync]
    simp only [filter_future_ready]
    rw [if_neg (by simpa [List.isEmpty_iff] using hmap)]
    rw [if_pos (by simpa [List.isEmpty_iff] using hf)]

/-- Witness for C4: with a one-event source the refreshed catalog is
non-empty. -/
theorem c4_catalog_never_empty_witness :
    sync_events [] [{}] ⟨2026, 1, 1⟩ ≠ [] :=
  (c4_catalog_never_empty [] [{}] ⟨2026, 1, 1⟩ (by simp)).1

/-- C3 counterexample: on 2025-12-30 (day-of-month 29–31 in December) the
code computes `today.replace(month=13, day=3)`, which raises `ValueError`,
so the owner's cancellation of a booking travelling 2026-06-01 is rejected
and the record left unchanged — although the claim's minimum-cancellable
date (next month, day 3 = 2026-01-03) lies strictly before the travel
date, so the claim says the status must be set to `cancelled`. -/
theorem c3_counterexample :
    cancel_booking_route [c3Booking] (some 4) 1 ⟨2025, 12, 30⟩ =
      (.dateError, [c3Booking]) ∧
    c3Booking.user_id = 4 ∧
    Date.lt (claimMinCancelDate ⟨2025, 12, 30⟩) c3Booking.travel_date ∧
    c3Booking.status = "confirmed" := by
  refine ⟨?_, rfl, by decide, rfl⟩
  norm_num [cancel_booking_route, booking_get_by_id, min_cancel_date,
    Date.replaceMonthDay, Date.valid, daysInMonth, isLeapYear, c3Booking,
    List.find?]

/-- C3 amended: an authenticated cancellation at `POST /booking/{id}/cancel`
sets the booking's status to `cancelled` iff the booking exists, is owned
by the requester, the code's minimum-cancellable-date computation succeeds
(it fails — rejecting the request regardless of travel date — when
`day + 3` is not a valid day of the current month although `day ≤ 28`, or
when today is in December with `day ≥ 29`), and the travel date lies
strictly after that date; in every rejected case the booking list is
unchanged, and on success only the found booking's status changes. -/
theorem c3_cancel_characterisation (bs : List Booking) (uid : Nat)
    (bid : Nat) (today : Date) :
    ((cancel_booking_route bs (some uid) bid today).1 = .success ↔
      ∃ b, booking_get_by_id bs bid = some b ∧ b.user_id = uid ∧
        ∃ m, min_cancel_date today = some m ∧ Date.lt m b.travel_date) ∧
    ((cancel_booking_route bs (some uid) bid today).1 ≠ .success →
      (cancel_booking_route bs (some uid) bid today).2 = bs) ∧
    (∀ b, booking_get_by_id bs bid = some b →
      (cancel_booking_route bs (some uid) bid today).1 = .success →
      booking_get_by_id (cancel_booking_route bs (some uid) bid today).2 bid =
        some { b with status := "cancelled" }) := by
  cases hfind : booking_get_by_id bs bid with
  | none =>
    have hres : cancel_booking_route bs (some uid) bid today = (.notFound, bs) := by
      simp [cancel_booking_route, hfind]
    refine ⟨⟨fun hr => ?_, fun hex => ?_⟩, fun hne => by rw [hres],
      fun b2 hb2 hr => absurd hb2 (by simp)⟩
    · rw [hres] at hr; simp at hr
    · obtain ⟨b2, hb2, -⟩ := hex
      exact Option.noConfusion hb2
  | some b =>
    by_cases howner : b.user_id ≠ uid
    · have hres : cancel_booking_route bs (some uid) bid today = (.forbidden, bs) := by
        simp [cancel_booking_route, hfind, howner]
      refine ⟨⟨fun hr => ?_, fun hex => ?_⟩, fun hne => by rw [hres],
        fun b2 hb2 hr => ?_⟩
      · rw [hres] at hr; simp at hr
      · obtain ⟨b2, hb2, hown2, -⟩ := hex
        simp only [Option.some.injEq] at hb2
        subst hb2
        exact (howner hown2).elim
      · rw [hres] at hr; simp at hr
    · push_neg at howner
      cases hmcd : min_cancel_date today with
      | none =>
        have hres : cancel_booking_route bs (some uid) bid today = (.dateError, bs) := by
          simp [cancel_booking_route, hfind, hmcd, howner]
        refine ⟨⟨fun hr => ?_, fun hex => ?_⟩, fun hne => by rw [hres],
          fun b2 hb2 hr => ?_⟩
        · rw [hres] at hr; simp at hr
        · obtain ⟨b2, hb2, -, m2, hm2, -⟩ := hex
          exact Option.noConfusion hm2
        · rw [hres] at hr; simp at hr
      | some m =>
        by_cases hlate : Date.le b.travel_date m
        · have hres : cancel_booking_route bs (some uid) bid today = (.tooLate, bs) := by
            simp [cancel_booking_route, hfind, hmcd, howner, hlate]
          refine ⟨⟨fun hr => ?_, fun hex => ?_⟩, fun hne => by rw [hres],
            fun b2 hb2 hr => ?_⟩
          · rw [hres] at hr; simp at hr
          · obtain ⟨b2, hb2, -, m2, hm2, hlt2⟩ := hex
            simp only [Option.some.injEq] at hb2 hm2
            subst hb2
            subst hm2
            exact (((Date.le_iff_not_lt b.travel_date m).mp hlate) hlt2).elim
          · rw [hres] at hr; simp at hr
        · obtain ⟨hcanc1, hcanc2⟩ := booking_cancel_of_found bs bid b hfind
          have hres : cancel_booking_route bs (some uid) bid today =
              (.success, (booking_cancel bs bid).2) := by
            simp [cancel_booking_route, hfind, hmcd, howner, hlate, hcanc1]
          have hlt : Date.lt m b.travel_date := by
            by_contra hc
            exact hlate ((Date.le_iff_not_lt b.travel_date m).mpr hc)
          refine ⟨⟨fun _ => ⟨b, rfl, howner, m, rfl, hlt⟩, fun _ => by rw [hres]⟩,
            fun hne => absurd (by rw [hres]) hne, fun b2 hb2 hr => ?_⟩
          simp only [Option.some.injEq] at hb2
          subst hb2
          rw [hres]
          exact hcanc2

set_option maxRecDepth 4096 in
/-- C2 counterexample: on 2023-06-15 the code accepts a booking for
2024-06-15 (the same calendar date next year), although that date is 366
days away — Feb 29, 2024 lies in between — and therefore outside the
claimed `today + 365 days` window. -/
theorem c2_counterexample :
    ((book_tour [c2Tour] 1 (some 7) ⟨2023, 6, 15⟩ (some (some ⟨2024, 6, 15⟩))
        (some (some 2)) 1 []).2.map Booking.travel_date = [⟨2024, 6, 15⟩]) ∧
    ¬ Date.le ⟨2024, 6, 15⟩ (Date.addDays ⟨2023, 6, 15⟩ 365) := by
  have h365 : Date.addDays ⟨2023, 6, 15⟩ 365 = ⟨2024, 6, 14⟩ := by
    have e : (365 : Nat) = 73 + 73 + 73 + 73 + 73 := by norm_num
    rw [e, Date.addDays_add, Date.addDays_add, Date.addDays_add, Date.addDays_add]
    have s1 : Date.addDays ⟨2023, 6, 15⟩ 73 = ⟨2023, 8, 27⟩ := by decide
    have s2 : Date.addDays ⟨2023, 8, 27⟩ 73 = ⟨2023, 11, 8⟩ := by decide
    have s3 : Date.addDays ⟨2023, 11, 8⟩ 73 = ⟨2024, 1, 20⟩ := by decide
    have s4 : Date.addDays ⟨2024, 1, 20⟩ 73 = ⟨2024, 4, 2⟩ := by decide
    have s5 : Date.addDays ⟨2024, 4, 2⟩ 73 = ⟨2024, 6, 14⟩ := by decide
    rw [s1, s2, s3, s4, s5]
  rw [h365]
  constructor
  · decide
  · decide

/-- C2 amended: a booking (direct or deferred) is created only if
`today ≤ d` and the computation `today.replace(year = today.year + 1)`
succeeds with a bound `m` (it fails when today is Feb 29, rejecting every
date) such that `d ≤ m` — the calendar date one year later, which is 366
days away when a Feb 29 intervenes, not a fixed 365-day window; any `d`
outside this window leaves the booking store unchanged. -/
theorem c2_travel_date_window (tours : List Tour) (tour_id : Nat)
    (su : Option Nat) (today : Date) (tdf : Option (Option Date))
    (pf : Option (Option Int)) (bid : Nat) (bs : List Booking)
    (st : RegisterState) (form : RegisterForm) :
    (∀ b, (book_tour tours tour_id su today tdf pf bid bs).1 = .booked b →
       Date.le today b.travel_date ∧
       ∃ m, today.replaceYear (today.year + 1) = some m ∧
         Date.le b.travel_date m) ∧
    ((book_tour tours tour_id su today tdf pf bid bs).2 ≠ bs →
       ∃ d, tdf = some (some d) ∧ Date.le today d ∧
         ∃ m, today.replaceYear (today.year + 1) = some m ∧ Date.le d m) ∧
    ((register_post st form tours today).2.bookings ≠ st.bookings →
       ∃ bd, st.sess.booking_data = some bd ∧ Date.le today bd.travel_date ∧
         ∃ m, today.replaceYear (today.year + 1) = some m ∧
           Date.le bd.travel_date m) := by
  refine ⟨?_, ?_, ?_⟩
  · intro b hb
    unfold book_tour at hb
    cases htour : tours_get_by_id tours tour_id with
    | none => rw [htour] at hb; cases hb
    | some tour =>
      rw [htour] at hb
      cases hpv : (match pf with | none => some (1 : Int) | some r => r) with
      | none => rw [hpv] at hb; cases hb
      | some p =>
        rw [hpv] at hb
        simp only at hb
        by_cases hrange : p < 1 ∨ p > 10
        · rw [if_pos hrange] at hb; cases hb
        · rw [if_neg hrange] at hb
          cases tdf with
          | none => cases hb
          | some td =>
            cases td with
            | none => cases hb
            | some d =>
              simp only at hb
              by_cases hpast : Date.lt d today
              · rw [if_pos hpast] at hb; cases hb
              · rw [if_neg hpast] at hb
                cases hmax : today.replaceYear (today.year + 1) with
                | none => rw [hmax] at hb; cases hb
                | some m =>
                  rw [hmax] at hb
                  simp only at hb
                  by_cases hfar : Date.lt m d
                  · rw [if_pos hfar] at hb; cases hb
                  · rw [if_neg hfar] at hb
                    cases su with
                    | none => cases hb
                    | some uid =>
                      simp only [BookResult.booked.injEq] at hb
                      subst hb
                      exact ⟨(Date.le_iff_not_lt today d).mpr hpast,
                        m, rfl, (Date.le_iff_not_lt d m).mpr hfar⟩
  · unfold book_tour
    cases htour : tours_get_by_id tours tour_id with
    | none => intro hne; exact absurd rfl hne
    | some tour =>
      cases hpv : (match pf with | none => some (1 : Int) | some r => r) with
      | none => intro hne; exact absurd rfl hne
      | some p =>
        simp only
        by_cases hrange : p < 1 ∨ p > 10
        · rw [if_pos hrange]; intro hne; exact absurd rfl hne
        · rw [if_neg hrange]
          cases tdf with
          | none => intro hne; exact absurd rfl hne
          | some td =>
            cases td with
            | none => intro hne; exact absurd rfl hne
            | some d =>
              simp only
              by_cases hpast : Date.lt d today
              · rw [if_pos hpast]; intro hne; exact absurd rfl hne
              · rw [if_neg hpast]
                cases hmax : today.replaceYear (today.year + 1) with
                | none => intro hne; exact absurd rfl hne
                | some m =>
                  simp only
                  by_cases hfar : Date.lt m d
                  · rw [if_pos hfar]; intro hne; exact absurd rfl hne
                  · rw [if_neg hfar]
                    cases su with
                    | none => intro hne; exact absurd rfl hne
                    | some uid =>
                      intro hne
                      exact ⟨d, rfl, (Date.le_iff_not_lt today d).mpr hpast,
                        m, rfl, (Date.le_iff_not_lt d m).mpr hfar⟩
  · unfold register_post
    by_cases hpw : form.password ≠ form.confirm_password
    · rw [if_pos hpw]; intro hne; exact absurd rfl hne
    · rw [if_neg hpw]
      cases hp : form.password with
      | none => intro hne; exact absurd rfl hne
      | some password =>
        try simp only
        by_cases hlen : password.length < 6
        · rw [if_pos hlen]; intro hne; exact absurd rfl hne
        · rw [if_neg hlen]
          by_cases hmail : (user_get_by_email st.users form.email).isSome
          · rw [if_pos hmail]; intro hne; exact absurd rfl hne
          · rw [if_neg hmail]
            try simp only
            cases hbd : st.sess.booking_data with
            | none => intro hne; exact absurd rfl hne
            | some bd =>
              try simp only
              by_cases hpast : Date.lt bd.travel_date today
              · rw [if_pos hpast]; intro hne; exact absurd rfl hne
              · rw [if_neg hpast]
                cases hmax : today.replaceYear (today.year + 1) with
                | none => intro hne; exact absurd rfl hne
                | some m =>
                  try simp only
                  by_cases hfar : Date.lt m bd.travel_date
                  · rw [if_pos hfar]; intro hne; exact absurd rfl hne
                  · rw [if_neg hfar]
                    cases htour : tours_get_by_id tours bd.tour_id with
                    | none => intro hne; exact absurd rfl hne
                    | some tour =>
                      try simp only
                      cases hprice : tour.price with
                      | none => intro hne; exact absurd rfl hne
                      | some p =>
                        intro hne
                        exact ⟨bd, rfl, (Date.le_iff_not_lt today bd.travel_date).mpr hpast,
                          m, rfl, (Date.le_iff_not_lt bd.travel_date m).mpr hfar⟩

/-- C1 counterexample: completing a deferred two-passenger booking at
registration charges `tour.price × passengers = 100 × 2 = 200`, not the
claimed `unitPrice × passengers = min_price × passengers = 50 × 2 = 100`:
the deferred path ignores the min/max price preference. -/
theorem c1_counterexample :
    ((register_post c1State c1Form [c1Tour] ⟨2026, 1, 1⟩).2.bookings.map
        (fun b => (b.total_price, b.passengers)) = [((200 : ℚ), (2 : Int))]) ∧
    claimUnitPrice c1Tour * (2 : Int) = 100 ∧ ((200 : ℚ) ≠ 100) := by
  have hlen : ("secret1" : String).length = 7 := rfl
  have hmax : Date.replaceYear ⟨2026, 1, 1⟩ (2026 + 1) = some ⟨2027, 1, 1⟩ := by
    decide
  have hpast : ¬ Date.lt ⟨2026, 5, 1⟩ ⟨2026, 1, 1⟩ := by decide
  have hfar : ¬ Date.lt ⟨2027, 1, 1⟩ ⟨2026, 5, 1⟩ := by decide
  refine ⟨?_, by norm_num [claimUnitPrice, c1Tour], by norm_num⟩
  simp only [register_post, c1State, c1Form, c1Tour, user_get_by_email,
    tours_get_by_id, List.find?, hlen, hmax, hpast, hfar]
  norm_num [List.find?]

/-- C1 amended: a direct booking at `POST /book/{id}` charges
`unitPrice × passengers` with `unitPrice = minPrice ?? maxPrice ?? price ??
0`, but a deferred booking completed at registration charges
`tour.price × passengers`, using the anchor price and ignoring the min/max
preference. -/
theorem c1_total_price (tours : List Tour) (tour_id : Nat) (su : Option Nat)
    (today : Date) (tdf : Option (Option Date)) (pf : Option (Option Int))
    (bid : Nat) (bs : List Booking) :
    (∀ b, (book_tour tours tour_id su today tdf pf bid bs).1 = .booked b →
       ∃ tour, tours_get_by_id tours tour_id = some tour ∧
         b.total_price = claimUnitPrice tour * b.passengers) ∧
    (∀ st form, (register_post st form tours today).2.bookings ≠ st.bookings →
       ∃ bd tour p, st.sess.booking_data = some bd ∧
         tours_get_by_id tours bd.tour_id = some tour ∧ tour.price = some p ∧
         ∃ nb, (register_post st form tours today).2.bookings = st.bookings ++ [nb] ∧
           nb.passengers = bd.passengers ∧
           nb.total_price = p * bd.passengers) := by
  constructor
  · intro b hb
    unfold book_tour at hb
    cases htour : tours_get_by_id tours tour_id with
    | none => rw [htour] at hb; cases hb
    | some tour =>
      rw [htour] at hb
      refine ⟨tour, rfl, ?_⟩
      cases hpv : (match pf with | none => some (1 : Int) | some r => r) with
      | none => rw [hpv] at hb; cases hb
      | some p =>
        rw [hpv] at hb
        simp only at hb
        by_cases hrange : p < 1 ∨ p > 10
        · rw [if_pos hrange] at hb; cases hb
        · rw [if_neg hrange] at hb
          cases tdf with
          | none => cases hb
          | some td =>
            cases td with
            | none => cases hb
            | some d =>
              simp only at hb
              by_cases hpast : Date.lt d today
              · rw [if_pos hpast] at hb; cases hb
              · rw [if_neg hpast] at hb
                cases hmax : today.replaceYear (today.year + 1) with
                | none => rw [hmax] at hb; cases hb
                | some m =>
                  rw [hmax] at hb
                  simp only at hb
                  by_cases hfar : Date.lt m d
                  · rw [if_pos hfar] at hb; cases hb
                  · rw [if_neg hfar] at hb
                    cases su with
                    | none => cases hb
                    | some uid =>
                      simp only [BookResult.booked.injEq] at hb
                      subst hb
                      rw [unit_price_eq_claim]
  · intro st form
    unfold register_post
    by_cases hpw : form.password ≠ form.confirm_password
    · rw [if_pos hpw]; intro hne; exact absurd rfl hne
    · rw [if_neg hpw]
      cases hp : form.password with
      | none => intro hne; exact absurd rfl hne
      | some password =>
        try simp only
        by_cases hlen : password.length < 6
        · rw [if_pos hlen]; intro hne; exact absurd rfl hne
        · rw [if_neg hlen]
          by_cases hmail : (user_get_by_email st.users form.email).isSome
          · rw [if_pos hmail]; intro hne; exact absurd rfl hne
          · rw [if_neg hmail]
            try simp only
            cases hbd : st.sess.booking_data with
            | none => intro hne; exact absurd rfl hne
            | some bd =>
              try simp only
              by_cases hpast : Date.lt bd.travel_date today
              · rw [if_pos hpast]; intro hne; exact absurd rfl hne
              · rw [if_neg hpast]
                cases hmax : today.replaceYear (today.year + 1) with
                | none => intro hne; exact absurd rfl hne
                | some m =>
                  try simp only
                  by_cases hfar : Date.lt m bd.travel_date
                  · rw [if_pos hfar]; intro hne; exact absurd rfl hne
                  · rw [if_neg hfar]
                    cases htour : tours_get_by_id tours bd.tour_id with
                    | none => intro hne; exact absurd rfl hne
                    | some tour =>
                      try simp only
                      cases hprice : tour.price with
                      | none => intro hne; exact absurd rfl hne
                      | some p =>
                        try simp only
                        intro hne
                        exact ⟨bd, tour, p, rfl, htour, hprice, _, rfl, rfl, rfl⟩

/-- C9: registration auto-logs the user in (writes `session["user_id"]`)
only when a pending booking intent is present and passes the date
re-validation; a successful registration with no pending intent creates the
user record, leaves the session without `user_id`, and redirects to the
login page. -/
theorem c9_register_autologin (st : RegisterState) (form : RegisterForm)
    (tours : List Tour) (today : Date) (pw : String) :
    ((register_post st form tours today).2.sess.user_id ≠ st.sess.user_id →
       ∃ bd, st.sess.booking_data = some bd ∧ Date.le today bd.travel_date ∧
         ∃ m, today.replaceYear (today.year + 1) = some m ∧
           Date.le bd.travel_date m) ∧
    (form.password = some pw → form.confirm_password = some pw →
     6 ≤ pw.length → user_get_by_email st.users form.email = none →
     st.sess.booking_data = none → st.sess.user_id = none →
       (register_post st form tours today).1 = .redirectLogin ∧
       (register_post st form tours today).2.sess.user_id = none ∧
       (register_post st form tours today).2.users = st.users ++
         [{ id := st.users_next_id
            email := form.email
            password_hash := generate_password_hash pw
            role := "client"
            first_name := form.first_name
            last_name := form.last_name
            phone := form.phone }]) := by
  constructor
  · unfold register_post
    by_cases hpw : form.password ≠ form.confirm_password
    · rw [if_pos hpw]; intro hne; exact absurd rfl hne
    · rw [if_neg hpw]
      cases hp : form.password with
      | none => intro hne; exact absurd rfl hne
      | some password =>
        try simp only
        by_cases hlen : password.length < 6
        · rw [if_pos hlen]; intro hne; exact absurd rfl hne
        · rw [if_neg hlen]
          by_cases hmail : (user_get_by_email st.users form.email).isSome
          · rw [if_pos hmail]; intro hne; exact absurd rfl hne
          · rw [if_neg hmail]
            try simp only
            cases hbd : st.sess.booking_data with
            | none => intro hne; exact absurd rfl hne
            | some bd =>
              try simp only
              by_cases hpast : Date.lt bd.travel_date today
              · rw [if_pos hpast]; intro hne; exact absurd rfl hne
              · rw [if_neg hpast]
                cases hmax : today.replaceYear (today.year + 1) with
                | none => intro hne; exact absurd rfl hne
                | some m =>
                  try simp only
                  by_cases hfar : Date.lt m bd.travel_date
                  · rw [if_pos hfar]; intro hne; exact absurd rfl hne
                  · rw [if_neg hfar]
                    have hout : ∃ bd2, (some bd : Option BookingIntent) = some bd2 ∧
                        Date.le today bd2.travel_date ∧
                        ∃ m2, some m = some m2 ∧ Date.le bd2.travel_date m2 :=
                      ⟨bd, rfl, (Date.le_iff_not_lt today bd.travel_date).mpr hpast,
                        m, rfl, (Date.le_iff_not_lt bd.travel_date m).mpr hfar⟩
                    cases htour : tours_get_by_id tours bd.tour_id with
                    | none => intro hne; exact hout
                    | some tour =>
                      try simp only
                      cases hprice : tour.price with
                      | none => intro hne; exact hout
                      | some p => intro hne; exact hout
  · intro hp hcp hlen hmail hbd huid
    have hres : register_post st form tours today =
        (.redirectLogin,
         { st with
             users := st.users ++
               [{ id := st.users_next_id
                  email := form.email
                  password_hash := generate_password_hash pw
                  role := "client"
                  first_name := form.first_name
                  last_name := form.last_name
                  phone := form.phone }]
             users_next_id := st.users_next_id + 1 }) := by
      simp [register_post, hp, hcp, hmail, hbd, Nat.not_lt.mpr hlen]
    refine ⟨by rw [hres], ?_, by rw [hres]⟩
    rw [hres]
    exact huid

/-- C10: when the pending intent's `tour_id` no longer resolves in the
current catalog, registration still reports success (redirect to login with
a success message), no booking is created, and the stale intent stays in
the session. -/
theorem c10_stale_intent (st : RegisterState) (form : RegisterForm)
    (tours : List Tour) (today : Date) (pw : String) (bd : BookingIntent)
    (m : Date)
    (hp : form.password = some pw) (hcp : form.confirm_password = some pw)
    (hlen : 6 ≤ pw.length)
    (hmail : user_get_by_email st.users form.email = none)
    (hbd : st.sess.booking_data = some bd)
    (hpast : ¬ Date.lt bd.travel_date today)
    (hmax : today.replaceYear (today.year + 1) = some m)
    (hfar : ¬ Date.lt m bd.travel_date)
    (htour : tours_get_by_id tours bd.tour_id = none) :
    (register_post st form tours today).1 = .redirectLogin ∧
    (register_post st form tours today).2.bookings = st.bookings ∧
    (register_post st form tours today).2.sess.booking_data = some bd := by
  have hres : register_post st form tours today =
      (.redirectLogin,
       { st with
           users := st.users ++
             [{ id := st.users_next_id
                email := form.email
                password_hash := generate_password_hash pw
                role := "client"
                first_name := form.first_name
                last_name := form.last_name
                phone := form.phone }]
           users_next_id := st.users_next_id + 1
           sess := { st.sess with
                       user_id := some st.users_next_id
                       email := some form.email
                       role := some "client" } }) := by
    simp [register_post, hp, hcp, hmail, hbd, htour, hmax, hpast, hfar,
      Nat.not_lt.mpr hlen]
  refine ⟨by rw [hres], by rw [hres], ?_⟩
  rw [hres]
  exact hbd

/-- Witness for C2 (amended): a direct booking that goes through lands
inside the code's window. -/
theorem c2_travel_date_window_witness :
    ∃ d, (some (some (⟨2026, 5, 1⟩ : Date)) : Option (Option Date)) = some (some d) ∧
      Date.le ⟨2026, 1, 10⟩ d ∧
      ∃ m, Date.replaceYear ⟨2026, 1, 10⟩ ((⟨2026, 1, 10⟩ : Date).year + 1) = some m ∧
        Date.le d m :=
  (c2_travel_date_window [c2Tour] 1 (some 7) ⟨2026, 1, 10⟩
      (some (some ⟨2026, 5, 1⟩)) (some (some 2)) 1 [] c2State {}).2.1
    (by decide)

/-- Witness for C3 (amended): with today 2026-01-10 the cutoff computation
succeeds (2026-01-13) and the owner's cancellation of the 2026-06-01
booking goes through, setting its status to `cancelled`. -/
theorem c3_cancel_characterisation_witness :
    booking_get_by_id (cancel_booking_route [c3Booking] (some 4) 1 ⟨2026, 1, 10⟩).2 1 =
      some { c3Booking with status := "cancelled" } :=
  (c3_cancel_characterisation [c3Booking] 4 1 ⟨2026, 1, 10⟩).2.2 c3Booking rfl
    (by decide)

/-- Witness for C1 (amended): the deferred booking of the C1 scenario is
created with the anchor price. -/
theorem c1_total_price_witness :
    ∃ bd tour p, c1State.sess.booking_data = some bd ∧
      tours_get_by_id [c1Tour] bd.tour_id = some tour ∧ tour.price = some p ∧
      ∃ nb, (register_post c1State c1Form [c1Tour] ⟨2026, 1, 1⟩).2.bookings =
          c1State.bookings ++ [nb] ∧
        nb.passengers = bd.passengers ∧ nb.total_price = p * bd.passengers :=
  (c1_total_price [c1Tour] 1 (some 7) ⟨2026, 1, 1⟩ none none 1 []).2
    c1State c1Form (by decide)

/-- Witness for C9: registering without a pending intent leaves the session
logged out. -/
theorem c9_register_autologin_witness :
    (register_post c9State c9Form [] ⟨2026, 1, 1⟩).1 = .redirectLogin ∧
    (register_post c9State c9Form [] ⟨2026, 1, 1⟩).2.sess.user_id = none :=
  have h := (c9_register_autologin c9State c9Form [] ⟨2026, 1, 1⟩ "secret1").2
    rfl rfl (by decide) rfl rfl rfl
  ⟨h.1, h.2.1⟩

/-- Witness for C10: the stale intent survives the successful
registration. -/
theorem c10_stale_intent_witness :
    (register_post c10State c10Form [] ⟨2026, 1, 1⟩).1 = .redirectLogin ∧
    (register_post c10State c10Form [] ⟨2026, 1, 1⟩).2.bookings = c10State.bookings ∧
    (register_post c10State c10Form [] ⟨2026, 1, 1⟩).2.sess.booking_data =
      some ⟨42, ⟨2026, 5, 1⟩, 2⟩ :=
  c10_stale_intent c10State c10Form [] ⟨2026, 1, 1⟩ "secret1"
    ⟨42, ⟨2026, 5, 1⟩, 2⟩ ⟨2027, 1, 1⟩ rfl rfl (by decide) rfl rfl
    (by decide) (by decide) (by decide) rfl

end Mikola
